import Mathlib

/-!
Verification of the frame pipeline of `picamera_stream.py`: a single-slot
frame store (`frame_buffer` guarded by `buffer_lock`), a capture loop
(`capture_frames`) publishing JPEG frames into the slot, and a per-viewer
stream generator (`gen_frames`) reading the slot and emitting multipart
MJPEG chunks.

The embedding is shallow: byte strings are lists of naturals, the shared
slot is an `Option` over byte strings, the interleaving of slot operations
is a list of `StoreOp`, the generator is a function of the sequence of slot
values it observes at its successive reads, and the capture loop is a
function of the outcomes of the camera collaborator calls it makes.
-/

namespace PicameraStream

/-- An encoded JPEG frame: an opaque byte sequence (`stream.getvalue()`),
modelled as a list of byte values. -/
abbrev Frame := List Nat

/-! ## FrameStore: the shared slot `frame_buffer`

`frame_buffer` starts as `None` (line 39).  The only write is the capture
loop's `frame_buffer = stream.getvalue()` under `buffer_lock` (lines
141-142), always a complete byte string; reads are the generator's
accesses of `frame_buffer` (lines 199-203).  An interleaving of these
operations is a list of `StoreOp`; the lock makes each operation atomic,
which is exactly what the list-of-operations model expresses. -/

/-- One atomic operation on the shared slot: a publish of a complete
frame by the capture loop, or a read by some stream generator. -/
inductive StoreOp : Type
  | publish (f : Frame)
  | read
deriving DecidableEq

/-- The slot value after running a trace of operations from state `s`:
`publish f` replaces the slot with `some f`, `read` leaves it unchanged. -/
def slotAfter (s : Option Frame) : List StoreOp → Option Frame
  | [] => s
  | StoreOp.publish f :: ops => slotAfter (some f) ops
  | StoreOp.read :: ops => slotAfter s ops

/-- The log of reads in a trace: each `read` is recorded together with the
list of frames published strictly before it.  `s` is the current slot
value, `pub` the frames published so far. -/
def readLog (s : Option Frame) (pub : List Frame) :
    List StoreOp → List (Option Frame × List Frame)
  | [] => []
  | StoreOp.publish f :: ops => readLog (some f) (pub ++ [f]) ops
  | StoreOp.read :: ops => (s, pub) :: readLog s pub ops

/-- Invariant: if the current slot is empty or holds an already-published
frame, then every read in the remaining trace returns the empty slot or a
frame published before that read. -/
theorem readLog_invariant (ops : List StoreOp) :
    ∀ (s : Option Frame) (pub : List Frame),
      (s = none ∨ ∃ f, s = some f ∧ f ∈ pub) →
      ∀ rp ∈ readLog s pub ops, rp.1 = none ∨ ∃ f, rp.1 = some f ∧ f ∈ rp.2 := by
  induction ops with
  | nil => intro s pub _ rp hrp; simp [readLog] at hrp
  | cons op ops ih =>
    intro s pub hs rp hrp
    cases op with
    | publish f =>
      simp only [readLog] at hrp
      exact ih (some f) (pub ++ [f]) (Or.inr ⟨f, rfl, by simp⟩) rp hrp
    | read =>
      simp only [readLog, List.mem_cons] at hrp
      rcases hrp with rfl | hrp
      · exact hs
      · exact ih s pub hs rp hrp

/-- Claim C1: for every interleaving of publishes and reads starting from the
empty slot, every read returns `none` or a byte sequence equal to some
frame published before it; reads are atomic (each returns a complete
published byte string), so no read ever observes a value unequal to every
published frame or a partially-constructed sequence. -/
theorem store_read_returns_published (ops : List StoreOp)
    (rp : Option Frame × List Frame) (hrp : rp ∈ readLog none [] ops) :
    rp.1 = none ∨ ∃ f, rp.1 = some f ∧ f ∈ rp.2 :=
  readLog_invariant ops none [] (Or.inl rfl) rp hrp

/-- Witness for C1 at the concrete trace
`[publish [1,2], read, publish [3], read]`: the first read returns the
first published frame. -/
theorem store_read_returns_published_witness :
    (some ([1, 2] : Frame), ([[1, 2]] : List Frame)).1 = none ∨
      ∃ f, (some ([1, 2] : Frame), ([[1, 2]] : List Frame)).1 = some f ∧
        f ∈ (some ([1, 2] : Frame), ([[1, 2]] : List Frame)).2 :=
  store_read_returns_published
    [StoreOp.publish [1, 2], StoreOp.read, StoreOp.publish [3], StoreOp.read]
    (some [1, 2], [[1, 2]]) (by simp [readLog])

/-! ## Stream generator `gen_frames` (lines 155-206)

The generator samples the shared slot at its successive reads: `buf i` is
the value of `frame_buffer` observed at the generator's i-th read (the
unlocked `while frame_buffer is None` check of line 171, and the locked
read of lines 199-200, in program order).  Times are in milliseconds from
the generator's start; `time.sleep(0.5)` advances time by 500 and
`time.sleep(0.033)` by 33.  The steady loop is infinite, so it is
observed through a fuel bound (the number of iterations unrolled). -/

/-- A PIL image as built by the fallback path (lines 178-181):
`Image.new` with a size and fill colour, plus the texts drawn on it. -/
structure PILImage : Type where
  width : Nat
  height : Nat
  color : Nat × Nat × Nat
  texts : List (Nat × Nat × String × (Nat × Nat × Nat))
deriving DecidableEq

/-- `Image.new(mode, size, color)`: a fresh image with no text drawn. -/
def imageNew (size : Nat × Nat) (color : Nat × Nat × Nat) : PILImage :=
  ⟨size.1, size.2, color, []⟩

/-- `ImageDraw.Draw(img).text(pos, txt, fill)`: records the drawn text. -/
def drawText (img : PILImage) (pos : Nat × Nat) (txt : String)
    (fill : Nat × Nat × Nat) : PILImage :=
  { img with texts := img.texts ++ [(pos.1, pos.2, txt, fill)] }

/-- The fallback image of lines 178-181: a 640x480 solid black image with
the error caption drawn at (100, 240) in white. -/
def fallbackImage : PILImage :=
  drawText (imageNew (640, 480) (0, 0, 0)) (100, 240)
    "カメラに接続できません" (255, 255, 255)

/-- One value yielded by `gen_frames`, before serialization to bytes: a
live chunk wrapping a frame read from the store (lines 202-203), or the
fallback chunk wrapping the synthesized image (lines 189-190).  The time
(ms since generator start) is the moment of the yield. -/
inductive GenEmit : Type
  | live (f : Frame) (t : Nat)
  | fallbackImg (img : PILImage) (t : Nat)
deriving DecidableEq

/-- Outcome of the startup loop of lines 170-194: either the fallback
branch was taken (at time `t`, after `sleeps` half-second sleeps), or the
steady loop is entered at time `t` with the next slot read being sample
`k`. -/
inductive StartupOut : Type
  | fallback (t sleeps : Nat)
  | steady (k t sleeps : Nat)
deriving DecidableEq

/-- The startup loop `while frame_buffer is None` (lines 170-174) with the
counter inverted: the source counts `wait_count` up from 0 and gives up
after the sleep that brings it to 21 (`wait_count > 20` tested after the
increment), so `remaining = 21 - wait_count` counts down from 21 and the
fallback branch fires when it reaches 0.  Each iteration checks the slot
at sample `k`; if empty it sleeps 500 ms and retries at `k + 1`. -/
def genStartupGo (buf : Nat → Option Frame) (k t sleeps : Nat) :
    Nat → StartupOut
  | 0 => StartupOut.fallback t sleeps
  | remaining + 1 =>
    match buf k with
    | some _ => StartupOut.steady (k + 1) t sleeps
    | none => genStartupGo buf (k + 1) (t + 500) (sleeps + 1) remaining

/-- The steady streaming loop of lines 196-206, unrolled `fuel` times:
each iteration reads the slot under the lock; if non-empty it yields a
live chunk at the current time, if empty it yields nothing; either way it
sleeps 33 ms and repeats. -/
def genSteady (buf : Nat → Option Frame) (k t : Nat) : Nat → List GenEmit
  | 0 => []
  | fuel + 1 =>
    match buf k with
    | some f => GenEmit.live f t :: genSteady buf (k + 1) (t + 33) fuel
    | none => genSteady buf (k + 1) (t + 33) fuel

/-- The generator's environment: the sequence of slot values it observes,
and whether the fallback-image construction of lines 176-186 succeeds
(its `try` block: `except` yields nothing and returns, line 192-194). -/
structure GenEnv : Type where
  buf : Nat → Option Frame
  renderOk : Bool

/-- One observed run of `gen_frames`: the values yielded, whether the
generator returned (ended its sequence) rather than being cut off at the
fuel bound, and the number of 500 ms startup sleeps it performed. -/
structure GenRun : Type where
  emits : List GenEmit
  terminated : Bool
  startupSleeps : Nat
deriving DecidableEq

/-- `gen_frames` (lines 155-206): run the startup loop from sample 0,
time 0, `wait_count = 0` (so `remaining = 21`); on the fallback branch
yield the single fallback chunk and return (or yield nothing if the image
construction raised), on the steady branch run the infinite loop for
`fuel` observed iterations. -/
def gen_frames (env : GenEnv) (fuel : Nat) : GenRun :=
  match genStartupGo env.buf 0 0 0 21 with
  | StartupOut.fallback t sleeps =>
    if env.renderOk then ⟨[GenEmit.fallbackImg fallbackImage t], true, sleeps⟩
    else ⟨[], true, sleeps⟩
  | StartupOut.steady k t sleeps => ⟨genSteady env.buf k t fuel, false, sleeps⟩

/-! ## Serialization of a yielded value to bytes (lines 189-190, 202-203) -/

/-- Byte values of a pure-ASCII string literal. -/
def strBytes (s : String) : List Nat := s.toList.map Char.toNat

/-- The CRLF pair `\r\n`. -/
def crlf : List Nat := [13, 10]

/-- The multipart chunk layout of the two `yield` expressions:
`b'--frame\r\n' + b'Content-Type: image/jpeg\r\n\r\n' + payload + b'\r\n'`
— boundary line, header line, blank line, payload bytes, trailing CRLF. -/
def mjpegChunk (payload : List Nat) : List Nat :=
  strBytes "--frame" ++ crlf ++ strBytes "Content-Type: image/jpeg" ++ crlf
    ++ crlf ++ payload ++ crlf

/-- Bytes of one yielded value, given the opaque JPEG encoder `enc` of the
image collaborator (`img.save(..., format='JPEG')`): a live chunk carries
the frame bytes read from the store verbatim, the fallback chunk carries
the encoded fallback image. -/
def renderEmit (enc : PILImage → List Nat) : GenEmit → List Nat
  | GenEmit.live f _ => mjpegChunk f
  | GenEmit.fallbackImg img _ => mjpegChunk (enc img)

/-! ## Capture loop `capture_frames` (lines 86-153) and `setup_camera`
(lines 43-84)

Camera-collaborator calls are opaque and can raise; a run of the loop is
determined by their outcomes, collected in `CamEnv`.  The one-shot stop
flag `stop_thread` is monotone (set once, never reset), so it is captured
by `stopTime`: the index of the first top-of-loop check (line 130) that
observes it true.  Exceptions are explicit: `PyErr` values travel to the
matching handler, and the first component of the result is the exception
escaping `capture_frames`, if any. -/

/-- An exception raised by a collaborator call inside the `try` block of
lines 121-148: `picam2.start()` or `picam2.capture_file(...)` failing. -/
inductive PyErr : Type
  | startError
  | captureError
deriving DecidableEq

/-- An observable event of a capture-loop run. -/
inductive CapEv : Type
  | openDev
  | publish (i : Nat)
  | logError
  | close
deriving DecidableEq

/-- Outcomes of the camera-collaborator calls made by one run. -/
structure CamEnv : Type where
  /-- the `from picamera2 import ...` of lines 104-107 succeeds -/
  importOk : Bool
  /-- the imports inside `setup_camera` (lines 58-59) succeed -/
  setupImportOk : Bool
  /-- the `Picamera2()` constructor (line 62) succeeds: this call
  acquires the camera device handle -/
  openOk : Bool
  /-- `create_video_configuration` and `configure` (lines 67-72) succeed -/
  configureOk : Bool
  /-- the autofocus `set_controls` call (line 76) succeeds -/
  afOk : Bool
  /-- `picam2.start()` (line 123) succeeds -/
  startOk : Bool
  /-- `picam2.capture_file(...)` at loop iteration `i` succeeds -/
  captureOk : Nat → Bool
  /-- index of the first `while not stop_thread` check observing the stop
  flag set (the flag is one-shot monotone, so a single index captures it) -/
  stopTime : Nat

/-- `setup_camera` (lines 43-84): everything runs inside one `try` whose
`except` returns `None`; the inner autofocus `try` (lines 75-79) only
logs on failure, so `afOk` never affects the result.  The returned events
record whether `Picamera2()` acquired the device handle; note that when
`configure` raises after a successful `Picamera2()`, the handle was
acquired but `None` is returned and nothing closes it. -/
def setup_camera (env : CamEnv) : Option Unit × List CapEv :=
  if !env.setupImportOk then (none, [])
  else if !env.openOk then (none, [])
  else if !env.configureOk then (none, [CapEv.openDev])
  else (some (), [CapEv.openDev])

/-- The `while not stop_thread` loop of lines 130-145 with the running
iteration index `i` and `remaining = stopTime - i` sleeps-to-go: the
top-of-loop check observes the stop flag exactly when `remaining = 0`
(loop exits normally), otherwise the iteration captures a frame — raising
`captureError` if the capture call fails — publishes it under the lock,
sleeps 33 ms, and repeats. -/
def captureLoopGo (captureOk : Nat → Bool) (i : Nat) :
    Nat → List CapEv × Option PyErr
  | 0 => ([], none)
  | remaining + 1 =>
    if captureOk i then
      let r := captureLoopGo captureOk (i + 1) remaining
      (CapEv.publish i :: r.1, r.2)
    else ([], some PyErr.captureError)

/-- `capture_frames` (lines 86-153).  The import failure of lines 104-111
is caught (`except ImportError`) and the function returns.  A `None` from
`setup_camera` returns at line 119 — before the `try`, so no `finally`
runs.  Otherwise the `try` body starts the camera and runs the loop, the
`except Exception` of line 147 catches any `PyErr` from the body and logs
it, and the `finally` of lines 149-153 closes the device.  The first
component is the exception escaping `capture_frames`, the second the
event trace. -/
def capture_frames (env : CamEnv) : Option PyErr × List CapEv :=
  if !env.importOk then (none, [])
  else
    match setup_camera env with
    | (none, evs) => (none, evs)
    | (some _, evs) =>
      let body :=
        if env.startOk then captureLoopGo env.captureOk 0 env.stopTime
        else ([], some PyErr.startError)
      let handled := match body.2 with
        | some _ => [CapEv.logError]
        | none => []
      (none, evs ++ body.1 ++ handled ++ [CapEv.close])

/-- The camera device handle was acquired during the run: the import at
the top of `capture_frames` succeeded, and inside `setup_camera` the
imports and the `Picamera2()` constructor succeeded. -/
def acquiredDev (env : CamEnv) : Bool :=
  env.importOk && env.setupImportOk && env.openOk

/-- Number of `close` events (releases of the device handle) in a trace. -/
def countClose : List CapEv → Nat
  | [] => 0
  | CapEv.close :: evs => countClose evs + 1
  | _ :: evs => countClose evs

/-- Number of `openDev` events (device-open attempts that acquired the
handle) in a trace. -/
def countOpen : List CapEv → Nat
  | [] => 0
  | CapEv.openDev :: evs => countOpen evs + 1
  | _ :: evs => countOpen evs

/-! ## Critical sections (lines 141-142 and 199-203)

The claims about what runs while `buffer_lock` is held are structural:
they name the statements lexically inside each `with buffer_lock` block.
The two blocks are embedded as lists of the atomic actions they contain,
in program order. -/

/-- An action that can appear inside a `with buffer_lock` block. -/
inductive LockedOp : Type
  | getValue
  | writeSlot
  | readSlot
  | buildChunk
  | yieldChunk
deriving DecidableEq

/-- The writer's critical section (lines 141-142):
`frame_buffer = stream.getvalue()` — the byte-string extraction from the
`BytesIO` and the reference write. -/
def capture_frames_criticalOps : List LockedOp :=
  [LockedOp.getValue, LockedOp.writeSlot]

/-- The reader's critical section (lines 199-203): the `if frame_buffer
is not None` read, the construction of the multipart chunk bytes, and the
`yield` of the chunk itself — the yield statement is lexically inside the
`with buffer_lock:` block, so the generator is suspended, and the chunk
handed to the HTTP layer, while the lock is held. -/
def gen_frames_criticalOps : List LockedOp :=
  [LockedOp.readSlot, LockedOp.buildChunk, LockedOp.yieldChunk]

/-- The action is the read or write of the slot reference itself. -/
def isSlotAccess : LockedOp → Bool
  | LockedOp.readSlot => true
  | LockedOp.writeSlot => true
  | _ => false

/-- The action emits a chunk to the consumer (the HTTP layer). -/
def isEmission : LockedOp → Bool
  | LockedOp.yieldChunk => true
  | _ => false

/-! ## Helper lemmas -/

/-- `countClose` distributes over concatenation. -/
theorem countClose_append (a b : List CapEv) :
    countClose (a ++ b) = countClose a + countClose b := by
  induction a with
  | nil => simp [countClose]
  | cons e a ih => cases e <;> simp [countClose, ih] <;> omega

/-- `countOpen` distributes over concatenation. -/
theorem countOpen_append (a b : List CapEv) :
    countOpen (a ++ b) = countOpen a + countOpen b := by
  induction a with
  | nil => simp [countOpen]
  | cons e a ih => cases e <;> simp [countOpen, ih] <;> omega

/-- The capture cycle emits no `close` events: the device is released only
by the `finally` block, never inside the loop. -/
theorem captureLoopGo_countClose (cap : Nat → Bool) (rem : Nat) :
    ∀ i, countClose (captureLoopGo cap i rem).1 = 0 := by
  induction rem with
  | zero => intro i; simp [captureLoopGo, countClose]
  | succ rem ih =>
    intro i
    by_cases h : cap i = true
    · simp [captureLoopGo, h, countClose, ih (i + 1)]
    · simp [captureLoopGo, h, countClose]

/-- The capture cycle emits no `openDev` events: the device is opened only
by `setup_camera`, before the loop. -/
theorem captureLoopGo_countOpen (cap : Nat → Bool) (rem : Nat) :
    ∀ i, countOpen (captureLoopGo cap i rem).1 = 0 := by
  induction rem with
  | zero => intro i; simp [captureLoopGo, countOpen]
  | succ rem ih =>
    intro i
    by_cases h : cap i = true
    · simp [captureLoopGo, h, countOpen, ih (i + 1)]
    · simp [captureLoopGo, h, countOpen]

/-- Every frame published by the capture cycle started at iteration `i`
with `rem` checks before the stop flag is observed belongs to an iteration
before the stop: its index is below `i + rem`. -/
theorem captureLoopGo_publish_lt (cap : Nat → Bool) (rem : Nat) :
    ∀ i j, CapEv.publish j ∈ (captureLoopGo cap i rem).1 → j < i + rem := by
  induction rem with
  | zero => intro i j h; simp [captureLoopGo] at h
  | succ rem ih =>
    intro i j h
    by_cases hc : cap i = true
    · simp only [captureLoopGo, hc, if_true, List.mem_cons] at h
      rcases h with h | h
      · cases h; omega
      · have := ih (i + 1) j h
        omega
    · simp [captureLoopGo, hc] at h

/-! ## Claims about the critical sections (C2) -/

/-- Claim C2 as stated is false: it is not the case that every action in
the two `buffer_lock` critical sections is the slot-reference read or
write — concretely, the reader's critical section (lines 199-203) also
contains the chunk construction and the `yield` of the chunk. -/
theorem critical_sections_not_swap_only :
    ¬ ((capture_frames_criticalOps ++ gen_frames_criticalOps).all
        isSlotAccess = true) := by
  decide

/-- Claim C2 (amended): the writer's critical section (lines 141-142)
contains no chunk emission — only the byte-string extraction and the slot
write — but the reader's critical section (lines 199-203) contains the
`yield` of the chunk itself, so chunk emission happens while
`buffer_lock` is held and a slow reader can block the writer. -/
theorem critical_sections_content :
    capture_frames_criticalOps.all (fun op => !isEmission op) = true ∧
    LockedOp.yieldChunk ∈ gen_frames_criticalOps ∧
    isEmission LockedOp.yieldChunk = true := by
  decide

/-! ## Claims about the startup window and the fallback (C3) -/

/-- Claim C3 as stated is false: with the slot permanently empty the
generator performs 21 half-second sleeps before synthesizing the fallback
frame (the source tests `wait_count > 20` after the increment), not 20. -/
theorem gen_fallback_poll_count_not_twenty :
    (gen_frames ⟨fun _ => none, true⟩ 0).startupSleeps = 21 ∧
    ¬ ((gen_frames ⟨fun _ => none, true⟩ 0).startupSleeps = 20) := by
  decide

/-- Claim C3 (amended): if the slot is never published and the fallback
image construction succeeds, the generator polls at a fixed 0.5 s
interval for 21 polls (10.5 seconds total), yields exactly one chunk — the
fallback image, the 640x480 solid-black image with the error caption,
JPEG-encoded — 10.5 seconds after start, and ends its sequence; the
rendered bytes are the single multipart chunk wrapping the encoded
fallback image. -/
theorem gen_fallback_timing (fuel : Nat) (enc : PILImage → List Nat) :
    gen_frames ⟨fun _ => none, true⟩ fuel =
      ⟨[GenEmit.fallbackImg fallbackImage 10500], true, 21⟩ ∧
    (gen_frames ⟨fun _ => none, true⟩ fuel).emits.map (renderEmit enc) =
      [mjpegChunk (enc fallbackImage)] ∧
    10500 = 500 * 21 :=
  ⟨rfl, rfl, rfl⟩

/-! ## Claims about the capture loop (C4, C5, C6) -/

/-- Claim C4: with the device opened and configured, a run whose stop flag
is first observed at check `n` releases the device handle exactly once
(whatever the start and per-iteration capture outcomes, including a
failing last capture), and every published frame belongs to an iteration
before check `n` — after the flag is set, at most the in-flight iteration
publishes, and the loop exits at the next check. -/
theorem capture_stop_bounded (af st : Bool) (cap : Nat → Bool) (n : Nat) :
    countClose (capture_frames ⟨true, true, true, true, af, st, cap, n⟩).2 = 1 ∧
    ∀ i, CapEv.publish i ∈ (capture_frames ⟨true, true, true, true, af, st, cap, n⟩).2 →
      i < n := by
  cases st with
  | false =>
    refine ⟨rfl, ?_⟩
    intro i h
    have hh : CapEv.publish i ∈ [CapEv.openDev, CapEv.logError, CapEv.close] := h
    simp at hh
  | true =>
    have hev : (capture_frames ⟨true, true, true, true, af, true, cap, n⟩).2 =
        [CapEv.openDev] ++ (captureLoopGo cap 0 n).1 ++
          (match (captureLoopGo cap 0 n).2 with
            | some _ => [CapEv.logError]
            | none => []) ++ [CapEv.close] := rfl
    constructor
    · rw [hev]
      cases hb : (captureLoopGo cap 0 n).2 <;>
        simp [hb, countClose_append, captureLoopGo_countClose, countClose]
    · intro i h
      rw [hev] at h
      cases hb : (captureLoopGo cap 0 n).2 <;> rw [hb] at h <;>
        simp only [List.mem_append, List.mem_cons, List.mem_singleton,
          List.not_mem_nil] at h <;>
      · rcases h with ((h | h) | h) | h
        all_goals first
          | (exact absurd h (by simp))
          | (have hlt := captureLoopGo_publish_lt cap n 0 i h; omega)

/-- Witness for C4 at a concrete run: with every collaborator call
succeeding and the stop flag observed at check 1, the run closes the
device once, and its published frame (iteration 0) is before the stop. -/
theorem capture_stop_bounded_witness :
    countClose
      (capture_frames ⟨true, true, true, true, true, true, fun _ => true, 1⟩).2 = 1 ∧
    (0 : Nat) < 1 :=
  ⟨(capture_stop_bounded true true (fun _ => true) 1).1,
    (capture_stop_bounded true true (fun _ => true) 1).2 0 (by decide)⟩

/-- Claim C5 (the code violates it): in the run where `Picamera2()`
succeeds but `configure` raises, the device handle is acquired, yet
`setup_camera` catches the exception and returns `None` without closing,
and `capture_frames` returns at line 119 before its `try`/`finally` — so
the acquired handle is never released (zero `close` events). -/
theorem capture_configure_failure_leaks_handle :
    acquiredDev ⟨true, true, true, false, true, true, fun _ => true, 0⟩ = true ∧
    countClose
      (capture_frames ⟨true, true, true, false, true, true, fun _ => true, 0⟩).2 = 0 := by
  decide

/-- Claim C6: whatever the collaborator outcomes — import failure, device
open or configuration failure, capability failure, start failure, or a
capture-cycle exception at any iteration — `capture_frames` returns
normally (no exception escapes its boundary), and the device is opened at
most once in the run (no automatic retry). -/
theorem capture_frames_returns_normally (env : CamEnv) :
    (capture_frames env).1 = none ∧ countOpen (capture_frames env).2 ≤ 1 := by
  obtain ⟨im, si, op, cf, af, st, cap, n⟩ := env
  cases im with
  | false => exact ⟨rfl, by simp [capture_frames, countOpen]⟩
  | true =>
    cases si with
    | false => exact ⟨rfl, by simp [capture_frames, setup_camera, countOpen]⟩
    | true =>
      cases op with
      | false => exact ⟨rfl, by simp [capture_frames, setup_camera, countOpen]⟩
      | true =>
        cases cf with
        | false => exact ⟨rfl, by simp [capture_frames, setup_camera, countOpen]⟩
        | true =>
          cases st with
          | false => exact ⟨rfl, by norm_num [capture_frames, setup_camera, countOpen]⟩
          | true =>
            refine ⟨rfl, ?_⟩
            have hev : (capture_frames ⟨true, true, true, true, af, true, cap, n⟩).2 =
                [CapEv.openDev] ++ (captureLoopGo cap 0 n).1 ++
                  (match (captureLoopGo cap 0 n).2 with
                    | some _ => [CapEv.logError]
                    | none => []) ++ [CapEv.close] := rfl
            rw [hev]
            cases hb : (captureLoopGo cap 0 n).2 <;>
              simp [hb, countOpen_append, captureLoopGo_countOpen, countOpen]

/-! ## Claims about the steady-state generator (C7, C8, C9, C10) -/

/-- If the slot is non-empty at a startup check, the startup loop exits to
the steady loop at once: no sleep, no fallback. -/
theorem genStartupGo_of_some (buf : Nat → Option Frame) (k t s rem : Nat)
    (f : Frame) (h : buf k = some f) :
    genStartupGo buf k t s (rem + 1) = StartupOut.steady (k + 1) t s := by
  simp [genStartupGo, h]

/-- Every value yielded by the steady loop is a live chunk wrapping a
frame that some locked read of the slot returned. -/
theorem genSteady_mem (buf : Nat → Option Frame) (fuel : Nat) :
    ∀ k t e, e ∈ genSteady buf k t fuel →
      ∃ g i tm, buf i = some g ∧ e = GenEmit.live g tm := by
  induction fuel with
  | zero => intro k t e h; simp [genSteady] at h
  | succ fuel ih =>
    intro k t e h
    cases hb : buf k with
    | some f =>
      simp only [genSteady, hb, List.mem_cons] at h
      rcases h with rfl | h
      · exact ⟨f, k, t, hb, rfl⟩
      · exact ih (k + 1) (t + 33) e h
    | none =>
      simp only [genSteady, hb] at h
      exact ih (k + 1) (t + 33) e h

/-- Claim C7: if the slot already holds a frame when the generator starts
(its first read returns `some f`), the startup loop is skipped and every
value the generator yields is a live chunk wrapping a frame read from the
store — the fallback image is never emitted. -/
theorem gen_no_fallback_when_published_first (env : GenEnv) (fuel : Nat)
    (f : Frame) (h : env.buf 0 = some f) (e : GenEmit)
    (he : e ∈ (gen_frames env fuel).emits) :
    ∃ g i tm, env.buf i = some g ∧ e = GenEmit.live g tm := by
  have hs : genStartupGo env.buf 0 0 0 21 = StartupOut.steady 1 0 0 :=
    genStartupGo_of_some env.buf 0 0 0 20 f h
  simp only [gen_frames, hs] at he
  exact genSteady_mem env.buf fuel 1 0 e he

/-- Witness for C7 with the slot constantly `[7]` and one steady
iteration: the single yielded value is the live chunk of `[7]`. -/
theorem gen_no_fallback_when_published_first_witness :
    ∃ (g : Frame) (i tm : Nat),
      (fun _ => some ([7] : Frame) : Nat → Option Frame) i = some g ∧
        GenEmit.live [7] 0 = GenEmit.live g tm := by
  exact gen_no_fallback_when_published_first ⟨fun _ => some [7], true⟩ 1 [7] rfl
    (GenEmit.live [7] 0) (by decide)

/-- Claim C8: every value the generator can yield serializes to a chunk of
the exact multipart shape — boundary line `--frame` with CRLF, header
line `Content-Type: image/jpeg` with CRLF, a blank line, the payload
bytes, a trailing CRLF — and in the steady loop a read that finds the
slot empty yields nothing for that tick: the iteration is skipped
silently and the next read happens a tick (33 ms) later. -/
theorem chunk_shape_and_skip :
    (∀ (enc : PILImage → List Nat) (e : GenEmit),
      ∃ p, renderEmit enc e = mjpegChunk p) ∧
    (∀ (buf : Nat → Option Frame) (k t n : Nat), buf k = none →
      genSteady buf k t (n + 1) = genSteady buf (k + 1) (t + 33) n) := by
  constructor
  · intro enc e
    cases e with
    | live f t => exact ⟨f, rfl⟩
    | fallbackImg img t => exact ⟨enc img, rfl⟩
  · intro buf k t n h
    simp [genSteady, h]

/-- Witness for C8: a live chunk of `[5]` has the multipart shape, and an
empty first read with one further iteration of fuel skips to the next
tick. -/
theorem chunk_shape_and_skip_witness :
    (∃ p, renderEmit (fun _ => []) (GenEmit.live [5] 0) = mjpegChunk p) ∧
    genSteady (fun _ => none) 0 0 1 = genSteady (fun _ => none) 1 33 0 :=
  ⟨chunk_shape_and_skip.1 (fun _ => []) (GenEmit.live [5] 0),
    chunk_shape_and_skip.2 (fun _ => none) 0 0 0 rfl⟩

/-- Claim C9: the slot is monotonically non-empty — it starts as `none`,
the only writes are publishes of complete frames, so once it holds a
frame it holds some frame after every further operation trace — and a
generator whose steady-loop reads all find the slot non-empty yields a
chunk on every iteration. -/
theorem slot_monotone_nonempty :
    (∀ (ops : List StoreOp) (f : Frame), ∃ g, slotAfter (some f) ops = some g) ∧
    (∀ (buf : Nat → Option Frame) (k t n : Nat), (∀ i, buf i ≠ none) →
      (genSteady buf k t n).length = n) := by
  constructor
  · intro ops
    induction ops with
    | nil => intro f; exact ⟨f, rfl⟩
    | cons op ops ih =>
      intro f
      cases op with
      | publish g => simpa [slotAfter] using ih g
      | read => simpa [slotAfter] using ih f
  · intro buf k t n
    induction n generalizing k t with
    | zero => intro _; simp [genSteady]
    | succ n ih =>
      intro hb
      cases hbk : buf k with
      | none => exact absurd hbk (hb k)
      | some f => simp [genSteady, hbk, ih (k + 1) (t + 33) hb]

/-- Witness for C9: after one further read the slot still holds a frame,
and three steady iterations over an always-full slot yield three chunks. -/
theorem slot_monotone_nonempty_witness :
    (∃ g, slotAfter (some [0]) [StoreOp.read] = some g) ∧
    (genSteady (fun _ => some [2]) 0 0 3).length = 3 :=
  ⟨slot_monotone_nonempty.1 [StoreOp.read] [0],
    slot_monotone_nonempty.2 (fun _ => some [2]) 0 0 3 (fun i => by simp)⟩

/-- The steady loop over a slot frozen at `some f` yields the live chunk
of `f` on every iteration, 33 ms apart. -/
theorem genSteady_const (f : Frame) (n : Nat) :
    ∀ k t, genSteady (fun _ => some f) k t n =
      (List.range n).map (fun i => GenEmit.live f (t + 33 * i)) := by
  induction n with
  | zero => intro k t; simp [genSteady]
  | succ n ih =>
    intro k t
    rw [List.range_succ_eq_map]
    simp only [genSteady, ih (k + 1) (t + 33), List.map_cons, List.map_map,
      Nat.mul_zero, Nat.add_zero]
    congr 1
    apply List.map_congr_left
    intro i _
    simp only [Function.comp_apply, GenEmit.live.injEq, true_and]
    omega

/-- Claim C10: the generator never consults the stop flag (its model has
no stop input at all); with the slot frozen at the last published frame
`f` — as after any capture-loop exit — a generator observed for any
number `n` of further iterations yields the live chunk of `f` on every
one of them, 33 ms apart, and has not terminated: viewers of a stopped
capture loop see the frozen frame indefinitely, not an ended stream. -/
theorem gen_continues_after_capture_stops (f : Frame) (r : Bool) (n : Nat) :
    gen_frames ⟨fun _ => some f, r⟩ n =
      ⟨(List.range n).map (fun i => GenEmit.live f (33 * i)), false, 0⟩ := by
  have hs : genStartupGo (fun _ => some f) 0 0 0 21 = StartupOut.steady 1 0 0 :=
    genStartupGo_of_some (fun _ => some f) 0 0 0 20 f rfl
  simp only [gen_frames, hs, genSteady_const f n 1 0, Nat.zero_add]

end PicameraStream
